import Mathlib

/-!
# Verification of the `relativedelta` npm package against its specification

This file embeds the TypeScript sources of the `relativedelta` package
(`src/RelativeDelta.ts`, current revision, together with `src/WeekdayTypes.ts`)
shallowly in Lean 4 and proves or refutes the frozen claims about it.

Modelling conventions:

* JavaScript numbers are modelled as exact rationals (`ℚ`).  All values the
  claims touch are either integers or short decimal fractions, for which
  JS double arithmetic is exact, so `ℚ` is a faithful model of every
  computation appearing here.
* A JavaScript `Date` is modelled by its timestamp: an integer number of
  milliseconds since the Unix epoch (`Int`).  The package is explicitly
  time-zone agnostic (its test-suite runs with `TZ=UTC`); we model the
  environment in which local time equals UTC, so local and UTC accessors
  coincide.  The calendar accessors (`getFullYear`, `getMonth`, …) and
  setters follow the ECMA-262 definitions (`YearFromTime`, `MonthFromTime`,
  `DateFromTime`, `MakeDay`, `MakeDate`, `MakeTime`): fields are derived
  from the timestamp through the proleptic Gregorian calendar and setters
  rebuild the timestamp from the (possibly out-of-range, hence rolling
  over) civil components.  `YearFromTime` is specified by ECMA-262 as "the
  largest integer y for which the start of year y is ≤ t"; our executable
  `civilFromDays` realises that specification and the theorem
  `dbyTotal_le_iff_year` style lemmas below (`civilFromDays_spec`) prove
  the characterising sandwich property, so the model is a correct
  implementation of the ECMA calendar, which the package treats as an
  external collaborator.
* Lean's `Int` division `/` and remainder `%` are euclidean; for positive
  literal divisors (the only use here) they agree with `Math.floor(a/b)`
  and with the nonnegative remainder, which is what the source computes in
  every such place (`Math.floor(x / 4)`, `((m % 12) + 12) % 12`, …).
  Where JavaScript's sign-of-dividend `%` differs, the explicit `jsRemInt`
  and `jsRemQ` below are used.
-/

set_option maxRecDepth 10000

namespace RelativeDeltaProof

/-! ## JavaScript numeric primitives -/

/-- JavaScript `Math.trunc` / the implicit `ToIntegerOrInfinity` conversion
applied by the `Date` setters: truncation of a number toward zero. -/
def jsTrunc (q : ℚ) : Int :=
  if q < 0 then -⌊-q⌋ else ⌊q⌋

/-- JavaScript `Math.round`: round to the nearest integer, halves toward
positive infinity, i.e. `⌊q + 1/2⌋`. -/
def jsRound (q : ℚ) : Int :=
  ⌊q + 1/2⌋

/-- JavaScript `%` on numbers: remainder with the sign of the dividend,
`a - b * trunc(a/b)`. -/
def jsRemQ (a b : ℚ) : ℚ :=
  a - b * (jsTrunc (a / b) : ℚ)

/-- JavaScript `%` on integers for a positive divisor: remainder with the
sign of the dividend. -/
def jsRemInt (a b : Int) : Int :=
  if a < 0 then -((-a) % b) else a % b

/-- JavaScript `Math.round(a / b)` for integers `a` and positive integer
`b`, computed exactly: `⌊a/b + 1/2⌋ = (2a + b) / (2b)` with floor
division. -/
def jsRoundDiv (a b : Int) : Int :=
  (2 * a + b) / (2 * b)

/-- `Number.isInteger` on an exact rational. -/
def jsIsInteger (q : ℚ) : Bool :=
  q.den == 1

/-- `handleFloatingPoint` (RelativeDelta.ts): return integers unchanged;
snap values within `1e-6` of an integer to that integer; otherwise round
to 10 decimal places. -/
def handleFloatingPoint (x : ℚ) : ℚ :=
  if x.den = 1 then x
  else if |(jsRound x : ℚ) - x| < 1/1000000 then (jsRound x : ℚ)
  else (jsRound (x * 10000000000) : ℚ) / 10000000000

/-! ## The calendar collaborator: ECMA-262 `Date` arithmetic on timestamps

Day numbers count days since 1970-01-01; `719528` is the number of days
from 0000-01-01 to the epoch. -/

/-- `isLeapYear` (RelativeDelta.ts): the 4/100/400 Gregorian rule.  The
source tests `year % 4 === 0` etc.; equality of a remainder with `0` does
not depend on the remainder convention, so euclidean `%` is faithful. -/
def isLeapYear (y : Int) : Bool :=
  decide ((y % 4 = 0 ∧ y % 100 ≠ 0) ∨ y % 400 = 0)

/-- Days in month `m` (0-based) of a (non-)leap year. -/
def daysInMonthTab (leap : Bool) (m : Nat) : Nat :=
  let l := if leap then 1 else 0
  match m with
  | 0 => 31 | 1 => 28 + l | 2 => 31 | 3 => 30 | 4 => 31 | 5 => 30
  | 6 => 31 | 7 => 31 | 8 => 30 | 9 => 31 | 10 => 30 | _ => 31

/-- Days before month `m` (0-based) in a (non-)leap year. -/
def daysBeforeMonth (leap : Bool) (m : Nat) : Nat :=
  let l := if leap then 1 else 0
  match m with
  | 0 => 0 | 1 => 31 | 2 => 59 + l | 3 => 90 + l | 4 => 120 + l | 5 => 151 + l
  | 6 => 181 + l | 7 => 212 + l | 8 => 243 + l | 9 => 273 + l | 10 => 304 + l
  | _ => 334 + l

/-- Days from the start of a 400-year Gregorian era to the start of its
year `k` (`0 ≤ k ≤ 400`); year `0` of an era is a leap year. -/
def dby0 (k : Nat) : Nat :=
  365*k + (k+3)/4 - (k+99)/100 + (k+399)/400

/-- Year-of-era of a day-of-era: first guess `doe / 365` (which can only
overshoot by one), corrected downward when the guess starts after `doe`. -/
def yoeOfDoe (doe : Nat) : Nat :=
  if doe < dby0 (doe / 365) then doe / 365 - 1 else doe / 365

/-- Days from 0000-01-01 to `y`-01-01 in the proleptic Gregorian calendar
(negative for negative years). -/
def dbyTotal (y : Int) : Int :=
  365*y + (y+3)/4 - (y+99)/100 + (y+399)/400

/-- ECMA-262 `MonthFromTime`/`DateFromTime`: month (0-based) and
day-of-month of a day-of-year (0-based). -/
def monthDayOfDoy (leap : Bool) (doy : Nat) : Nat × Nat :=
  let l := if leap then 1 else 0
  if doy < 31 then (0, doy + 1)
  else if doy < 59 + l then (1, doy - 30)
  else if doy < 90 + l then (2, doy - (58 + l))
  else if doy < 120 + l then (3, doy - (89 + l))
  else if doy < 151 + l then (4, doy - (119 + l))
  else if doy < 181 + l then (5, doy - (150 + l))
  else if doy < 212 + l then (6, doy - (180 + l))
  else if doy < 243 + l then (7, doy - (211 + l))
  else if doy < 273 + l then (8, doy - (242 + l))
  else if doy < 304 + l then (9, doy - (272 + l))
  else if doy < 334 + l then (10, doy - (303 + l))
  else (11, doy - (333 + l))

/-- Civil date (year, 0-based month, day-of-month) of a day number
(ECMA-262 `YearFromTime`, `MonthFromTime`, `DateFromTime`). -/
def civilFromDays (z : Int) : Int × Nat × Nat :=
  let zz := z + 719528
  let era := zz / 146097
  let doe := (zz % 146097).toNat
  let yoe := yoeOfDoe doe
  let y : Int := 400*era + yoe
  let doy := doe - dby0 yoe
  let md := monthDayOfDoy (isLeapYear y) doy
  (y, md.1, md.2)

/-- Day number of a civil date with arbitrary (rolling-over) integer month
and day-of-month (ECMA-262 `MakeDay`). -/
def daysFromCivil (y m d : Int) : Int :=
  let ym := y + m / 12
  let mn := (m % 12).toNat
  dbyTotal ym + (daysBeforeMonth (isLeapYear ym) mn : Int) + d - 1 - 719528

/-! Timestamp accessors and setters (local time = UTC). -/

def dayOfTs (t : Int) : Int := t / 86400000

def timeWithinDay (t : Int) : Int := t % 86400000

def getFullYear (t : Int) : Int := (civilFromDays (dayOfTs t)).1

def getMonth (t : Int) : Int := ((civilFromDays (dayOfTs t)).2.1 : Int)

def getDate (t : Int) : Int := ((civilFromDays (dayOfTs t)).2.2 : Int)

/-- `Date.prototype.getDay` (0 = Sunday … 6 = Saturday); the epoch day was
a Thursday. -/
def getDay (t : Int) : Int := (dayOfTs t + 4) % 7

def getHours (t : Int) : Int := (t / 3600000) % 24

def getMinutes (t : Int) : Int := (t / 60000) % 60

def getSeconds (t : Int) : Int := (t / 1000) % 60

def getMilliseconds (t : Int) : Int := t % 1000

/-- `Date.UTC(y, m, d)` and, in a UTC environment, `new Date(y, m, d)`:
midnight of the (rolled-over) civil date. -/
def dateUTC (y m d : Int) : Int := daysFromCivil y m d * 86400000

def setFullYear3 (t y m d : Int) : Int :=
  daysFromCivil y m d * 86400000 + timeWithinDay t

def setFullYear1 (t y : Int) : Int := setFullYear3 t y (getMonth t) (getDate t)

def setMonth (t m : Int) : Int := setFullYear3 t (getFullYear t) m (getDate t)

def setDate (t d : Int) : Int := setFullYear3 t (getFullYear t) (getMonth t) d

def setHours4 (t h mi s ms : Int) : Int :=
  dayOfTs t * 86400000 + h * 3600000 + mi * 60000 + s * 1000 + ms

def setHours1 (t h : Int) : Int :=
  dayOfTs t * 86400000 + h * 3600000 + t % 3600000

def setMinutes1 (t mi : Int) : Int :=
  (t / 3600000) * 3600000 + mi * 60000 + t % 60000

def setSeconds1 (t s : Int) : Int :=
  (t / 60000) * 60000 + s * 1000 + t % 1000

def setMilliseconds1 (t ms : Int) : Int :=
  (t / 1000) * 1000 + ms

/-! ## Correctness of the calendar model

`civilFromDays` is the inverse of `daysFromCivil` and produces valid civil
components; this justifies it as an implementation of ECMA-262
`YearFromTime`/`MonthFromTime`/`DateFromTime`. -/

/-- Leap year test for a year-of-era (`0 ≤ k < 400`; year 0 of an era is
the one divisible by 400). -/
def leapOfEra (k : Nat) : Bool :=
  decide ((k % 4 = 0 ∧ k % 100 ≠ 0) ∨ k % 400 = 0)

theorem dby0_le_succ (k : Nat) : dby0 k + 365 ≤ dby0 (k+1) := by
  unfold dby0; omega

theorem dby0_mono {a b : Nat} (h : a ≤ b) : dby0 a ≤ dby0 b := by
  induction h with
  | refl => exact Nat.le_refl _
  | @step n _ ih =>
    have h2 := dby0_le_succ n
    simp only [Nat.succ_eq_add_one]
    omega

theorem dby0_zero : dby0 0 = 0 := rfl

theorem dby0_400 : dby0 400 = 146097 := rfl

theorem dby0_lower (k : Nat) : 365*k ≤ dby0 k := by
  unfold dby0; omega

theorem dby0_upper (k : Nat) (h : k ≤ 401) : dby0 k ≤ 365*k + 101 := by
  unfold dby0; omega

theorem yoe_sandwich (doe : Nat) (h : doe < 146097) :
    dby0 (yoeOfDoe doe) ≤ doe ∧ doe < dby0 (yoeOfDoe doe + 1) ∧ yoeOfDoe doe < 400 := by
  unfold yoeOfDoe
  generalize hg : doe / 365 = G
  have hGle : G ≤ 400 := by omega
  split <;> rename_i hcond
  · rcases G with _ | g
    · rw [dby0_zero] at hcond; omega
    · simp only [Nat.add_sub_cancel]
      have l1 := dby0_upper g (by omega)
      exact ⟨by omega, hcond, by omega⟩
  · have l2 := dby0_lower (G+1)
    have h400 : G < 400 := by
      by_contra hge
      have hmono : dby0 400 ≤ dby0 G := dby0_mono (by omega)
      rw [dby0_400] at hmono
      omega
    exact ⟨by omega, by omega, h400⟩

theorem dby0_succ_true (k : Nat) (hb : leapOfEra k = true) :
    dby0 (k+1) = dby0 k + 366 := by
  unfold leapOfEra at hb
  rw [decide_eq_true_eq] at hb
  unfold dby0
  omega

theorem dby0_succ_false (k : Nat) (hb : leapOfEra k = false) :
    dby0 (k+1) = dby0 k + 365 := by
  unfold leapOfEra at hb
  rw [decide_eq_false_iff_not] at hb
  unfold dby0
  omega

theorem isLeapYear_era (e : Int) (k : Nat) (h : k < 400) :
    isLeapYear (400*e + k) = leapOfEra k := by
  unfold isLeapYear leapOfEra
  rw [decide_eq_decide]
  omega

theorem dbyTotal_era (e : Int) (k : Nat) :
    dbyTotal (400*e + k) = 146097*e + (dby0 k : Int) := by
  unfold dbyTotal dby0; omega

/-- Interval and inverse facts for the month/day-of-year table of a common
year, as one decidable package. -/
theorem monthDay_facts_false : ∀ doy < 365,
    daysBeforeMonth false (monthDayOfDoy false doy).1 + (monthDayOfDoy false doy).2 = doy + 1
    ∧ (monthDayOfDoy false doy).1 < 12
    ∧ 1 ≤ (monthDayOfDoy false doy).2
    ∧ (monthDayOfDoy false doy).2 ≤ daysInMonthTab false (monthDayOfDoy false doy).1 := by
  decide

/-- Interval and inverse facts for the month/day-of-year table of a leap
year, as one decidable package. -/
theorem monthDay_facts_true : ∀ doy < 366,
    daysBeforeMonth true (monthDayOfDoy true doy).1 + (monthDayOfDoy true doy).2 = doy + 1
    ∧ (monthDayOfDoy true doy).1 < 12
    ∧ 1 ≤ (monthDayOfDoy true doy).2
    ∧ (monthDayOfDoy true doy).2 ≤ daysInMonthTab true (monthDayOfDoy true doy).1 := by
  decide

theorem monthDay_ok (leap : Bool) (doy : Nat)
    (hB : doy < 365 + (if leap then 1 else 0)) :
    daysBeforeMonth leap (monthDayOfDoy leap doy).1 + (monthDayOfDoy leap doy).2 = doy + 1
    ∧ (monthDayOfDoy leap doy).1 < 12
    ∧ 1 ≤ (monthDayOfDoy leap doy).2
    ∧ (monthDayOfDoy leap doy).2 ≤ daysInMonthTab leap (monthDayOfDoy leap doy).1 := by
  cases leap
  · exact monthDay_facts_false doy (by simpa using hB)
  · exact monthDay_facts_true doy (by simpa using hB)

/-- The civil components of any day number reconstruct that day number and
are valid (month in `[0,12)`, day-of-month in `[1, days-in-month]`). -/
theorem civilFromDays_spec (z : Int) :
    daysFromCivil (civilFromDays z).1 ((civilFromDays z).2.1 : Int) ((civilFromDays z).2.2 : Int) = z
    ∧ (civilFromDays z).2.1 < 12
    ∧ 1 ≤ (civilFromDays z).2.2
    ∧ (civilFromDays z).2.2 ≤ daysInMonthTab (isLeapYear (civilFromDays z).1) (civilFromDays z).2.1 := by
  have hdoeNN : 0 ≤ (z + 719528) % 146097 := Int.emod_nonneg _ (by norm_num)
  have hdoeLT : (z + 719528) % 146097 < 146097 := Int.emod_lt_of_pos _ (by norm_num)
  have hzz : z + 719528 = 146097 * ((z + 719528) / 146097) + (z + 719528) % 146097 := by
    omega
  set era := (z + 719528) / 146097 with hera
  set doe := ((z + 719528) % 146097).toNat with hdoeN
  have hcast : (doe : Int) = (z + 719528) % 146097 := Int.toNat_of_nonneg hdoeNN
  have hdoeB : doe < 146097 := by omega
  obtain ⟨hs1, hs2, hs3⟩ := yoe_sandwich doe hdoeB
  have hleap : isLeapYear (400*era + (yoeOfDoe doe : Int)) = leapOfEra (yoeOfDoe doe) :=
    isLeapYear_era era (yoeOfDoe doe) hs3
  have hcfd : civilFromDays z =
      (400*era + (yoeOfDoe doe : Int),
       (monthDayOfDoy (leapOfEra (yoeOfDoe doe)) (doe - dby0 (yoeOfDoe doe))).1,
       (monthDayOfDoy (leapOfEra (yoeOfDoe doe)) (doe - dby0 (yoeOfDoe doe))).2) := by
    simp only [civilFromDays, ← hera, ← hdoeN, hleap]
  have hdoyB : doe - dby0 (yoeOfDoe doe) < 365 + (if leapOfEra (yoeOfDoe doe) then 1 else 0) := by
    cases hLL : leapOfEra (yoeOfDoe doe)
    · have h6 := dby0_succ_false _ hLL
      simp only [Bool.false_eq_true, if_false]
      omega
    · have h6 := dby0_succ_true _ hLL
      simp only [if_true]
      omega
  obtain ⟨hA, hB, hC, hD⟩ := monthDay_ok (leapOfEra (yoeOfDoe doe)) (doe - dby0 (yoeOfDoe doe)) hdoyB
  rw [hcfd]
  refine ⟨?_, hB, hC, ?_⟩
  · have hmDiv : ((monthDayOfDoy (leapOfEra (yoeOfDoe doe)) (doe - dby0 (yoeOfDoe doe))).1 : Int) / 12 = 0 := by
      omega
    have hmMod : ((monthDayOfDoy (leapOfEra (yoeOfDoe doe)) (doe - dby0 (yoeOfDoe doe))).1 : Int) % 12
        = ((monthDayOfDoy (leapOfEra (yoeOfDoe doe)) (doe - dby0 (yoeOfDoe doe))).1 : Int) := by
      omega
    have hADD : (400*era + (yoeOfDoe doe : Int)) + 0 = 400*era + (yoeOfDoe doe : Int) := by ring
    have htot := dbyTotal_era era (yoeOfDoe doe)
    have htoNat : (((monthDayOfDoy (leapOfEra (yoeOfDoe doe)) (doe - dby0 (yoeOfDoe doe))).1 : Int)).toNat
        = (monthDayOfDoy (leapOfEra (yoeOfDoe doe)) (doe - dby0 (yoeOfDoe doe))).1 := by
      omega
    unfold daysFromCivil
    dsimp only
    rw [hmDiv, hADD, hmMod, htoNat, hleap, htot]
    omega
  · dsimp only
    rw [hleap]
    exact hD

theorem dfc_cfd (t : Int) :
    daysFromCivil (getFullYear t) (getMonth t) (getDate t) = dayOfTs t := by
  unfold getFullYear getMonth getDate
  exact (civilFromDays_spec (dayOfTs t)).1

theorem getMonth_range (t : Int) : 0 ≤ getMonth t ∧ getMonth t < 12 := by
  unfold getMonth
  have h := (civilFromDays_spec (dayOfTs t)).2.1
  omega

theorem getHours_range (t : Int) : 0 ≤ getHours t ∧ getHours t < 24 := by
  unfold getHours; omega

theorem getMinutes_range (t : Int) : 0 ≤ getMinutes t ∧ getMinutes t < 60 := by
  unfold getMinutes; omega

theorem getSeconds_range (t : Int) : 0 ≤ getSeconds t ∧ getSeconds t < 60 := by
  unfold getSeconds; omega

theorem getMilliseconds_range (t : Int) : 0 ≤ getMilliseconds t ∧ getMilliseconds t < 1000 := by
  unfold getMilliseconds; omega

theorem daysFromCivil_linear (y m d d' : Int) :
    daysFromCivil y m d' = daysFromCivil y m d + (d' - d) := by
  unfold daysFromCivil; ring

theorem setDate_getDate_add (t j : Int) :
    setDate t (getDate t + j) = t + j * 86400000 := by
  unfold setDate setFullYear3
  have h1 : daysFromCivil (getFullYear t) (getMonth t) (getDate t + j)
      = daysFromCivil (getFullYear t) (getMonth t) (getDate t) + j := by
    rw [daysFromCivil_linear (getFullYear t) (getMonth t) (getDate t) (getDate t + j)]
    ring
  rw [h1, dfc_cfd]
  unfold dayOfTs timeWithinDay
  omega

/-! ## The `Weekday` value type (WeekdayTypes.ts) -/

/-- `Weekday` (WeekdayTypes.ts): a day-of-week selector (0 = Monday …
6 = Sunday) with a signed occurrence count `n`. -/
structure Weekday where
  weekDay : Nat
  n : Int
  deriving DecidableEq

/-- The four runtime shapes accepted for the `weekDay` option: a `Weekday`
value, a `[code, n]` pair (string or numeric code), a bare string code, or
a bare numeric code. -/
inductive WeekdayInput where
  | value (w : Weekday)
  | pair (code : String) (n : ℚ)
  | pairNum (q : ℚ) (n : ℚ)
  | str (code : String)
  | num (q : ℚ)
  deriving DecidableEq

/-- `weekDayMap` (WeekdayTypes.ts): the fixed two-letter code table. -/
def weekDayMap (code : String) : Option Nat :=
  if code = "MO" then some 0
  else if code = "TU" then some 1
  else if code = "WE" then some 2
  else if code = "TH" then some 3
  else if code = "FR" then some 4
  else if code = "SA" then some 5
  else if code = "SU" then some 6
  else none

/-- The `Weekday` constructor applied to a string code: validate against
the table, truncate `n`. -/
def mkWeekdayString (code : String) (n : ℚ) : Except String Weekday :=
  match weekDayMap code with
  | some w => .ok ⟨w, jsTrunc n⟩
  | none => .error ("Invalid weekday string: " ++ code)

/-- The `Weekday` constructor applied to a numeric code: must be an
integer in `0…6`; truncate `n`. -/
def mkWeekdayNumber (q : ℚ) (n : ℚ) : Except String Weekday :=
  if q.den = 1 ∧ 0 ≤ q ∧ q ≤ 6 then .ok ⟨q.num.toNat, jsTrunc n⟩
  else .error "Invalid weekday number: weekday number must be an integer between 0 and 6"

/-! ## The `RelativeDelta` entity (RelativeDelta.ts) -/

/-- The fields of a constructed `RelativeDelta`.  Relative fields are
numbers; absolute fields are number-or-null; `weekDay` holds an optional
`Weekday`. -/
structure RelativeDelta where
  years : ℚ
  months : ℚ
  days : ℚ
  leapDays : ℚ
  hours : ℚ
  minutes : ℚ
  seconds : ℚ
  milliseconds : ℚ
  year : Option ℚ
  month : Option ℚ
  day : Option ℚ
  hour : Option ℚ
  minute : Option ℚ
  second : Option ℚ
  millisecond : Option ℚ
  weekDay : Option Weekday
  deriving DecidableEq

/-- `RelativeDeltaOptions`: every recognized constructor option, each
optional (`none` = not supplied). -/
structure RelativeDeltaOptions where
  date1 : Option Int := none
  date2 : Option Int := none
  years : Option ℚ := none
  months : Option ℚ := none
  weeks : Option ℚ := none
  days : Option ℚ := none
  leapDays : Option ℚ := none
  hours : Option ℚ := none
  minutes : Option ℚ := none
  seconds : Option ℚ := none
  milliseconds : Option ℚ := none
  year : Option ℚ := none
  month : Option ℚ := none
  day : Option ℚ := none
  weekDay : Option WeekdayInput := none
  yearDay : Option ℚ := none
  nonLeapYearDay : Option ℚ := none
  hour : Option ℚ := none
  minute : Option ℚ := none
  second : Option ℚ := none
  millisecond : Option ℚ := none
  deriving DecidableEq

/-- `fixUnit` (RelativeDelta.ts): overflow of one unit into the next.
`absValue % max` in the source is the JS remainder of nonnegative
operands, `|value| - max*⌊|value|/max⌋`, and both `(absValue/max)|0` and
`Math.floor` compute `⌊|value|/max⌋` there. -/
def fixUnit (value carryTo max : ℚ) : ℚ × ℚ :=
  if value = 0 then (0, carryTo)
  else if |value| < max then (value, carryTo)
  else
    let sign : ℚ := if value < 0 then -1 else 1
    let div : Int := ⌊|value| / max⌋
    ((|value| - max * div) * sign, carryTo + div * sign)

/-- `fix` (RelativeDelta.ts): cascade milliseconds→seconds→minutes→hours→
days and months→years. -/
def fix (d : RelativeDelta) : RelativeDelta :=
  let p1 := fixUnit d.milliseconds d.seconds 1000
  let p2 := fixUnit p1.2 d.minutes 60
  let p3 := fixUnit p2.2 d.hours 60
  let p4 := fixUnit p3.2 d.days 24
  let p5 := fixUnit d.months d.years 12
  { d with milliseconds := p1.1, seconds := p2.1, minutes := p3.1, hours := p4.1,
           days := p4.2, months := p5.1, years := p5.2 }

/-- One entry of the `absoluteValues` validation loop. -/
def checkAbsolute (value : Option ℚ) (lo hi : ℚ) (rangeMsg : String)
    (skipRangeCheck : Bool) : Except String Unit :=
  match value with
  | none => .ok ()
  | some v =>
    if v.den ≠ 1 then
      .error "Floats are not supported for parameters year, month, day, hour, minute, second and millisecond"
    else if ¬skipRangeCheck ∧ (v < lo ∨ v > hi) then
      .error rangeMsg
    else .ok ()

/-- Sequence two validation steps, propagating the first error. -/
def seqE (a b : Except String Unit) : Except String Unit :=
  match a with
  | .error e => .error e
  | .ok _ => b

/-- `validateInput` (RelativeDelta.ts): integrality of `years`/`months`,
then integrality and range of each absolute field, in source order.  The
source ranges for `hour`, `minute`, `second` and `millisecond` start at 1,
not 0. -/
def validateInput (d : RelativeDelta) (dayModifiedInternally : Bool) : Except String Unit :=
  if d.years.den ≠ 1 ∨ d.months.den ≠ 1 then
    .error "Floats are not supported for parameters years and months"
  else
    seqE (checkAbsolute d.year 1 9999 "parameter year is out of range: 1...9999" false)
    (seqE (checkAbsolute d.month 1 12 "parameter month is out of range: 1...12" false)
    (seqE (checkAbsolute d.day 1 31 "parameter day is out of range: 1...31" dayModifiedInternally)
    (seqE (checkAbsolute d.hour 1 23 "parameter hour is out of range: 1...23" false)
    (seqE (checkAbsolute d.minute 1 59 "parameter minute is out of range: 1...59" false)
    (seqE (checkAbsolute d.second 1 59 "parameter second is out of range: 1...59" false)
          (checkAbsolute d.millisecond 1 999 "parameter millisecond is out of range: 1...999" false))))))

/-- Resolution of the `weekDay` option into a `Weekday` (constructor,
lines handling `options.weekDay`). -/
def resolveWeekdayInput (w : Option WeekdayInput) : Except String (Option Weekday) :=
  match w with
  | none => .ok none
  | some (.value wd) => .ok (some wd)
  | some (.pair code n) => (mkWeekdayString code n).map some
  | some (.pairNum q n) => (mkWeekdayNumber q n).map some
  | some (.str code) => (mkWeekdayString code 1).map some
  | some (.num q) => (mkWeekdayNumber q 1).map some

/-- The `else if (options.yearDay)` part of the year-day selection
(truthiness: a supplied 0 is falsy). -/
def pickFromYearDay (yearDayOpt : Option ℚ) (leapDays0 : ℚ) : Option ℚ × ℚ :=
  match yearDayOpt with
  | some q => if q = 0 then (none, leapDays0) else (some q, if q > 59 then -1 else leapDays0)
  | none => (none, leapDays0)

/-- Year-day selection: `nonLeapYearDay` wins when truthy, otherwise
`yearDay` (which also forces `leapDays = -1` past day 59). -/
def pickYearDay (nonLeap yearDayOpt : Option ℚ) (leapDays0 : ℚ) : Option ℚ × ℚ :=
  match nonLeap with
  | some q => if q = 0 then pickFromYearDay yearDayOpt leapDays0 else (some q, leapDays0)
  | none => pickFromYearDay yearDayOpt leapDays0

/-- `findIndex` over the cumulative table
`[31,59,90,120,151,181,212,243,273,304,334,366]` together with the
day-within-month computation. -/
def yearDayLookup (q : ℚ) : Option (Nat × ℚ) :=
  if q ≤ 31 then some (0, q)
  else if q ≤ 59 then some (1, q - 31)
  else if q ≤ 90 then some (2, q - 59)
  else if q ≤ 120 then some (3, q - 90)
  else if q ≤ 151 then some (4, q - 120)
  else if q ≤ 181 then some (5, q - 151)
  else if q ≤ 212 then some (6, q - 181)
  else if q ≤ 243 then some (7, q - 212)
  else if q ≤ 273 then some (8, q - 243)
  else if q ≤ 304 then some (9, q - 273)
  else if q ≤ 334 then some (10, q - 304)
  else if q ≤ 366 then some (11, q - 334)
  else none

/-- The pre-normalization field assembly of the field-based constructor
path: relative fields default to 0, `weeks` folds into `days`, absolute
fields are stored as given (with the month/day/leapDays values chosen by
the year-day resolution). -/
def preOf (opts : RelativeDeltaOptions) (wd : Option Weekday)
    (monthV dayV : Option ℚ) (leapDaysV : ℚ) : RelativeDelta := {
  years := opts.years.getD 0
  months := opts.months.getD 0
  days := opts.days.getD 0 + (opts.weeks.getD 0) * 7
  leapDays := leapDaysV
  hours := opts.hours.getD 0
  minutes := opts.minutes.getD 0
  seconds := opts.seconds.getD 0
  milliseconds := opts.milliseconds.getD 0
  year := opts.year
  month := monthV
  day := dayV
  hour := opts.hour
  minute := opts.minute
  second := opts.second
  millisecond := opts.millisecond
  weekDay := wd }

/-- Assemble the field-based delta, validate it and normalize it
(constructor, `else` branch tail). -/
def assembleAndFinish (opts : RelativeDeltaOptions) (wd : Option Weekday)
    (monthV dayV : Option ℚ) (leapDaysV : ℚ) (dayModified : Bool) :
    Except String RelativeDelta :=
  match validateInput (preOf opts wd monthV dayV leapDaysV) dayModified with
  | .error e => .error e
  | .ok _ => .ok (fix (preOf opts wd monthV dayV leapDaysV))

/-- The field-based construction path (constructor, `else` branch). -/
def fieldPath (opts : RelativeDeltaOptions) : Except String RelativeDelta :=
  match resolveWeekdayInput opts.weekDay with
  | .error e => .error e
  | .ok wd =>
    let yd := pickYearDay opts.nonLeapYearDay opts.yearDay (opts.leapDays.getD 0)
    match yd.1 with
    | some q =>
      match yearDayLookup q with
      | none => .error "Invalid yearDay value"
      | some (mi, dv) =>
        if q < 1 then .error "Invalid yearDay value"
        else assembleAndFinish opts wd (some ((mi+1 : Nat) : ℚ)) (some dv) yd.2 true
    | none => assembleAndFinish opts wd opts.month opts.day yd.2 false

/-- `applySign` (constructor): multiply by the sign, mapping 0 to 0. -/
def applySignI (value sign : Int) : Int :=
  if value = 0 then 0 else value * sign

/-- `countLeapYears` (RelativeDelta.ts). -/
def countLeapYears (startYear endYear : Int) : Int :=
  (endYear / 4 - endYear / 100 + endYear / 400)
    - ((startYear - 1) / 4 - (startYear - 1) / 100 + (startYear - 1) / 400)

/-- `countLeapDaysBetween` (RelativeDelta.ts). -/
def countLeapDaysBetween (startD endD : Int) : Int :=
  let startYear := getFullYear startD
  let endYear := getFullYear endD
  let leapYearsCount := countLeapYears startYear endYear
  let adj1 : Int :=
    if isLeapYear startYear ∧ (getMonth startD > 1 ∨ (getMonth startD = 1 ∧ getDate startD > 29))
    then -1 else 0
  let adj2 : Int :=
    if isLeapYear endYear ∧ (getMonth endD < 1 ∨ (getMonth endD = 1 ∧ getDate endD < 29))
    then -1 else 0
  leapYearsCount + adj1 + adj2

/-- The integer components computed by the two-instant diff path of the
constructor; every quantity there is integral. -/
structure DiffResult where
  years : Int
  months : Int
  days : Int
  leapDays : Int
  hours : Int
  minutes : Int
  seconds : Int
  milliseconds : Int
  deriving DecidableEq

/-- The earlier of the two instants (`d1 <= d2 ? d1 : d2`). -/
def diffEarlier (d1 d2 : Int) : Int := if d1 ≤ d2 then d1 else d2

/-- The later of the two instants. -/
def diffLater (d1 d2 : Int) : Int := if d1 ≤ d2 then d2 else d1

/-- The sign recorded by the diff path (−1 when `d1 ≤ d2`). -/
def diffSign (d1 d2 : Int) : Int := if d1 ≤ d2 then -1 else 1

/-- The month count of the diff path before the sign is applied
(`monthDiff` after both adjustments). -/
def diffMonthRaw (earlier later : Int) : Int :=
  let monthDiff0 := getMonth later - getMonth earlier
  let monthDiff1 := if getDate later < getDate earlier then monthDiff0 - 1 else monthDiff0
  if monthDiff1 < 0 then monthDiff1 + 12 else monthDiff1

/-- The year count of the diff path before the sign is applied. -/
def diffYearsRaw (earlier later : Int) : Int :=
  let years0 := getFullYear later - getFullYear earlier
  let monthDiff0 := getMonth later - getMonth earlier
  let monthDiff1 := if getDate later < getDate earlier then monthDiff0 - 1 else monthDiff0
  if monthDiff1 < 0 then years0 - 1 else years0

/-- The day count of the diff path before the sign is applied: advance the
start of `earlier` by the computed years and months (rolling back to the
last day of the previous month when month lengths truncate the landing day) and
count whole days up to the start of `later`. -/
def diffDaysRaw (earlier later : Int) : Int :=
  let startOfEarlier := dateUTC (getFullYear earlier) (getMonth earlier) (getDate earlier)
  let startOfLater := dateUTC (getFullYear later) (getMonth later) (getDate later)
  let temp1 := setFullYear1 startOfEarlier (getFullYear startOfEarlier + diffYearsRaw earlier later)
  let temp2 := setMonth temp1 (getMonth temp1 + diffMonthRaw earlier later)
  let temp3 := if getDate temp2 ≠ getDate startOfEarlier then setDate temp2 0 else temp2
  jsRoundDiv (startOfLater - temp3) 86400000

/-- The diff path of the constructor (`if (date1 && date2)` branch),
computing the signed field values. -/
def diffCore (d1 d2 : Int) : DiffResult :=
  let earlier := diffEarlier d1 d2
  let later := diffLater d1 d2
  let sign := diffSign d1 d2
  { years := applySignI (diffYearsRaw earlier later) sign
    months := applySignI (diffMonthRaw earlier later) sign
    days := applySignI (diffDaysRaw earlier later) sign
    leapDays := applySignI (countLeapDaysBetween earlier later) sign
    hours := applySignI (getHours later - getHours earlier) sign
    minutes := applySignI (getMinutes later - getMinutes earlier) sign
    seconds := applySignI (getSeconds later - getSeconds earlier) sign
    milliseconds := applySignI (getMilliseconds later - getMilliseconds earlier) sign }

/-- The delta produced by the diff path: signed relative fields, all
absolute fields null. -/
def diffDelta (d1 d2 : Int) : RelativeDelta :=
  let c := diffCore d1 d2
  { years := (c.years : ℚ), months := (c.months : ℚ), days := (c.days : ℚ),
    leapDays := (c.leapDays : ℚ), hours := (c.hours : ℚ), minutes := (c.minutes : ℚ),
    seconds := (c.seconds : ℚ), milliseconds := (c.milliseconds : ℚ),
    year := none, month := none, day := none, hour := none, minute := none,
    second := none, millisecond := none, weekDay := none }

/-- The `RelativeDelta` constructor: unpaired instants error, two instants
diff, otherwise the field-based path. -/
def construct (opts : RelativeDeltaOptions) : Except String RelativeDelta :=
  match opts.date1, opts.date2 with
  | some d1, some d2 => .ok (diffDelta d1 d2)
  | some _, none => .error "Both date1 and date2 must be provided for date comparison."
  | none, some _ => .error "Both date1 and date2 must be provided for date comparison."
  | none, none => fieldPath opts

/-- `applyToDate` (RelativeDelta.ts): absolute overrides, then relative
offsets, then the weekday search.  Numeric arguments reaching a `Date`
setter are truncated by ECMA-262 `ToIntegerOrInfinity`. -/
def applyToDate (d : RelativeDelta) (date : Int) : Int :=
  let result1 := match d.year with
    | some y => setFullYear1 date (jsTrunc y)
    | none => date
  let result2 :=
    if d.month ≠ none ∨ d.day ≠ none then
      let targetYear := getFullYear result1
      let targetMonth : ℚ := match d.month with
        | some m => m - 1
        | none => ((getMonth result1 : Int) : ℚ)
      match d.day with
      | some dv =>
        let daysInTargetMonth := getDate (dateUTC targetYear (jsTrunc (targetMonth + 1)) 0)
        let targetDay : ℚ := min dv ((daysInTargetMonth : Int) : ℚ)
        setFullYear3 result1 targetYear (jsTrunc targetMonth) (jsTrunc targetDay)
      | none =>
        match d.month with
        | some _ =>
          let originalDay := getDate result1
          let daysInTargetMonth := getDate (dateUTC targetYear (jsTrunc (targetMonth + 1)) 0)
          let targetDay := min originalDay daysInTargetMonth
          setFullYear3 result1 targetYear (jsTrunc targetMonth) targetDay
        | none => result1
    else result1
  let result3 := match d.hour with | some h => setHours1 result2 (jsTrunc h) | none => result2
  let result4 := match d.minute with | some m => setMinutes1 result3 (jsTrunc m) | none => result3
  let result5 := match d.second with | some s => setSeconds1 result4 (jsTrunc s) | none => result4
  let result6 := match d.millisecond with
    | some ms => setMilliseconds1 result5 (jsTrunc ms)
    | none => result5
  let result7 :=
    if d.years ≠ 0 then setFullYear1 result6 (jsTrunc ((getFullYear result6 : ℚ) + d.years))
    else result6
  let result8 :=
    if d.months ≠ 0 then
      let originalDay := getDate result7
      let originalMonth := getMonth result7
      let originalYear := getFullYear result7
      let targetMonth : ℚ := (originalMonth : ℚ) + d.months
      let yearAdjustment : Int := ⌊targetMonth / 12⌋
      let normalizedTargetMonth : ℚ := jsRemQ (jsRemQ targetMonth 12 + 12) 12
      let targetYear := originalYear + yearAdjustment
      let r := setFullYear3 result7 targetYear (jsTrunc normalizedTargetMonth) 1
      let daysInTargetMonth := getDate (dateUTC targetYear (jsTrunc (normalizedTargetMonth + 1)) 0)
      setDate r (min originalDay daysInTargetMonth)
    else result7
  let daysToAdd : ℚ :=
    if d.leapDays ≠ 0 ∧ isLeapYear (getFullYear result8) ∧ getMonth result8 > 1
    then d.days + d.leapDays else d.days
  let result9 :=
    if daysToAdd ≠ 0 then setDate result8 (jsTrunc ((getDate result8 : ℚ) + daysToAdd))
    else result8
  let result10 :=
    if d.hours ≠ 0 then setHours1 result9 (jsTrunc ((getHours result9 : ℚ) + d.hours))
    else result9
  let result11 :=
    if d.minutes ≠ 0 then setMinutes1 result10 (jsTrunc ((getMinutes result10 : ℚ) + d.minutes))
    else result10
  let result12 :=
    if d.seconds ≠ 0 then setSeconds1 result11 (jsTrunc ((getSeconds result11 : ℚ) + d.seconds))
    else result11
  let result13 :=
    if d.milliseconds ≠ 0 then
      setMilliseconds1 result12 (jsTrunc ((getMilliseconds result12 : ℚ) + d.milliseconds))
    else result12
  match d.weekDay with
  | none => result13
  | some wd =>
    let weekDay : Int := wd.weekDay
    let nth : Int := if wd.n = 0 then 1 else wd.n
    let jumpDays0 : Int := ((nth.natAbs - 1 : Nat) : Int) * 7
    let currentWeekday : Int := (getDay result13 + 6) % 7
    let jumpDays : Int :=
      if nth > 0 then jumpDays0 + (7 - currentWeekday + weekDay) % 7
      else -(jumpDays0 + jsRemInt (currentWeekday - weekDay) 7)
    setDate result13 (getDate result13 + jumpDays)

/-- `toSeconds` (RelativeDelta.ts). -/
def toSeconds (d : RelativeDelta) (referenceDate : Int) : ℚ :=
  let totalDays0 : ℚ := d.days + d.leapDays
  if d.years = 0 ∧ d.months = 0 then
    handleFloatingPoint (totalDays0 * 86400 + d.hours * 3600 + d.minutes * 60
      + d.seconds + d.milliseconds / 1000)
  else
    let startDate := setHours4 referenceDate 12 0 0 0
    let endDate0 := setHours4 referenceDate 12 0 0 0
    let endDate1 :=
      if d.years ≠ 0 then setFullYear1 endDate0 (jsTrunc ((getFullYear endDate0 : ℚ) + d.years))
      else endDate0
    let endDate2 :=
      if d.months ≠ 0 then
        let targetMonth : ℚ := (getMonth endDate1 : ℚ) + d.months
        let yearAdjustment : Int := ⌊targetMonth / 12⌋
        let e := setFullYear1 endDate1 (getFullYear endDate1 + yearAdjustment)
        setMonth e (jsTrunc (jsRemQ (jsRemQ targetMonth 12 + 12) 12))
      else endDate1
    let maxDayInMonth := getDate (dateUTC (getFullYear endDate2) (getMonth endDate2 + 1) 0)
    let endDate3 :=
      if getDate endDate2 > maxDayInMonth then setDate endDate2 maxDayInMonth else endDate2
    let startUtc := dateUTC (getFullYear startDate) (getMonth startDate) (getDate startDate)
    let endUtc := dateUTC (getFullYear endDate3) (getMonth endDate3) (getDate endDate3)
    let daysDiff := jsRoundDiv (endUtc - startUtc) 86400000
    handleFloatingPoint ((totalDays0 + (daysDiff : ℚ)) * 86400 + d.hours * 3600
      + d.minutes * 60 + d.seconds + d.milliseconds / 1000)

/-- The options record `normalized` passes to the constructor: the
fractional part of each unit is carried into the next smaller one
(`Math.trunc` for days/hours/minutes, `Math.floor` for seconds,
`Math.round` for milliseconds). -/
def normOpts (d : RelativeDelta) : RelativeDeltaOptions :=
  let days : Int := jsTrunc d.days
  let hoursFloat := handleFloatingPoint (d.hours + 24 * (d.days - (days : ℚ)))
  let hours : Int := jsTrunc hoursFloat
  let minutesFloat := handleFloatingPoint (d.minutes + 60 * (hoursFloat - (hours : ℚ)))
  let minutes : Int := jsTrunc minutesFloat
  let secondsFloat := handleFloatingPoint (d.seconds + 60 * (minutesFloat - (minutes : ℚ)))
  let seconds : Int := ⌊secondsFloat⌋
  let milliseconds : Int := jsRound (d.milliseconds + 1000 * (secondsFloat - (seconds : ℚ)))
  { years := some d.years, months := some d.months, days := some ((days : Int) : ℚ),
    hours := some ((hours : Int) : ℚ), minutes := some ((minutes : Int) : ℚ),
    seconds := some ((seconds : Int) : ℚ),
    milliseconds := some ((milliseconds : Int) : ℚ) }

/-- `normalized` (RelativeDelta.ts): carry fractional parts downward, then
construct a fresh delta from the integral fields. -/
def normalized (d : RelativeDelta) : Except String RelativeDelta :=
  construct (normOpts d)


/-! ## Arithmetic facts about the numeric primitives -/

theorem exists_int_of_den_one {q : ℚ} (h : q.den = 1) : ∃ n : Int, q = (n : ℚ) :=
  ⟨q.num, (Rat.coe_int_num_of_den_eq_one h).symm⟩

theorem jsTrunc_intCast (n : Int) : jsTrunc ((n : ℚ)) = n := by
  unfold jsTrunc
  split
  · rw [← Int.cast_neg, Int.floor_intCast]; ring
  · rw [Int.floor_intCast]

theorem jsTrunc_cast_eq {q : ℚ} (h : q.den = 1) : ((jsTrunc q : Int) : ℚ) = q := by
  obtain ⟨n, rfl⟩ := exists_int_of_den_one h
  rw [jsTrunc_intCast]

theorem jsRound_intCast (n : Int) : jsRound ((n : ℚ)) = n := by
  unfold jsRound
  rw [add_comm, Int.floor_add_int]
  norm_num

theorem jsRound_cast_eq {q : ℚ} (h : q.den = 1) : ((jsRound q : Int) : ℚ) = q := by
  obtain ⟨n, rfl⟩ := exists_int_of_den_one h
  rw [jsRound_intCast]

theorem floor_cast_eq {q : ℚ} (h : q.den = 1) : ((⌊q⌋ : Int) : ℚ) = q := by
  obtain ⟨n, rfl⟩ := exists_int_of_den_one h
  rw [Int.floor_intCast]

theorem handleFloatingPoint_den_one {q : ℚ} (h : q.den = 1) : handleFloatingPoint q = q := by
  unfold handleFloatingPoint
  rw [if_pos h]

theorem den_one_add {a b : ℚ} (ha : a.den = 1) (hb : b.den = 1) : (a + b).den = 1 := by
  obtain ⟨n, rfl⟩ := exists_int_of_den_one ha
  obtain ⟨m, rfl⟩ := exists_int_of_den_one hb
  rw [← Int.cast_add]
  exact Rat.den_intCast _

theorem den_one_sub {a b : ℚ} (ha : a.den = 1) (hb : b.den = 1) : (a - b).den = 1 := by
  obtain ⟨n, rfl⟩ := exists_int_of_den_one ha
  obtain ⟨m, rfl⟩ := exists_int_of_den_one hb
  rw [← Int.cast_sub]
  exact Rat.den_intCast _

theorem den_one_mul {a b : ℚ} (ha : a.den = 1) (hb : b.den = 1) : (a * b).den = 1 := by
  obtain ⟨n, rfl⟩ := exists_int_of_den_one ha
  obtain ⟨m, rfl⟩ := exists_int_of_den_one hb
  rw [← Int.cast_mul]
  exact Rat.den_intCast _

theorem den_one_abs {a : ℚ} (ha : a.den = 1) : |a|.den = 1 := by
  obtain ⟨n, rfl⟩ := exists_int_of_den_one ha
  rw [← Int.cast_abs]
  exact Rat.den_intCast _

/-! ## Facts about `fixUnit` and `fix` -/

theorem fixUnit_residue_bounds (v max : ℚ) (hm : 0 < max) (_hv : ¬|v| < max) :
    0 ≤ |v| - max * (⌊|v| / max⌋ : ℚ) ∧ |v| - max * (⌊|v| / max⌋ : ℚ) < max := by
  have hmne : max ≠ 0 := ne_of_gt hm
  have e1 : max * (|v| / max) = |v| := by field_simp
  constructor
  · have h0 : max * (⌊|v|/max⌋ : ℚ) ≤ |v| := by
      calc max * (⌊|v|/max⌋ : ℚ) ≤ max * (|v|/max) :=
            mul_le_mul_of_nonneg_left (Int.floor_le _) hm.le
        _ = |v| := e1
    linarith
  · have h1 : |v| < max * ((⌊|v|/max⌋ : ℚ) + 1) := by
      calc |v| = max * (|v|/max) := e1.symm
        _ < max * ((⌊|v|/max⌋ : ℚ) + 1) :=
            mul_lt_mul_of_pos_left (Int.lt_floor_add_one _) hm
    nlinarith

theorem abs_sign_mul (x v : ℚ) (h0 : 0 ≤ x) :
    |x * (if v < 0 then (-1 : ℚ) else 1)| = x := by
  split <;> simp [abs_of_nonneg, h0]

theorem fixUnit_fst_bound (v c max : ℚ) (hm : 0 < max) : |(fixUnit v c max).1| < max := by
  unfold fixUnit
  by_cases h0 : v = 0
  · rw [if_pos h0]
    simpa using hm
  · rw [if_neg h0]
    by_cases h2 : |v| < max
    · rw [if_pos h2]
      exact h2
    · rw [if_neg h2]
      dsimp only
      obtain ⟨hr0, hr1⟩ := fixUnit_residue_bounds v max hm h2
      rw [abs_sign_mul _ _ hr0]
      exact hr1

theorem fixUnit_id {v : ℚ} (c max : ℚ) (h : |v| < max) : fixUnit v c max = (v, c) := by
  unfold fixUnit
  by_cases h0 : v = 0
  · rw [if_pos h0, h0]
  · rw [if_neg h0, if_pos h]

theorem fixUnit_den {v c max : ℚ} (hv : v.den = 1) (hc : c.den = 1) (hm : max.den = 1) :
    (fixUnit v c max).1.den = 1 ∧ (fixUnit v c max).2.den = 1 := by
  unfold fixUnit
  by_cases h0 : v = 0
  · rw [if_pos h0]
    exact ⟨Rat.den_ofNat 0, hc⟩
  · rw [if_neg h0]
    by_cases h2 : |v| < max
    · rw [if_pos h2]
      exact ⟨hv, hc⟩
    · rw [if_neg h2]
      dsimp only
      have hsign : (if v < 0 then (-1 : ℚ) else 1).den = 1 := by
        split
        · rw [show ((-1 : ℚ)) = ((-1 : Int) : ℚ) by norm_num]
          exact Rat.den_intCast _
        · exact Rat.den_ofNat 1
      have hdiv : ((⌊|v| / max⌋ : Int) : ℚ).den = 1 := Rat.den_intCast _
      exact ⟨den_one_mul (den_one_sub (den_one_abs hv) (den_one_mul hm hdiv)) hsign,
             den_one_add hc (den_one_mul hdiv hsign)⟩

theorem fixUnit_nonneg {v c : ℚ} (max : ℚ) (hm : 0 < max) (hv : 0 ≤ v) (hc : 0 ≤ c) :
    0 ≤ (fixUnit v c max).1 ∧ 0 ≤ (fixUnit v c max).2 := by
  unfold fixUnit
  by_cases h0 : v = 0
  · rw [if_pos h0]
    exact ⟨le_refl 0, hc⟩
  · rw [if_neg h0]
    by_cases h2 : |v| < max
    · rw [if_pos h2]
      exact ⟨hv, hc⟩
    · rw [if_neg h2]
      dsimp only
      obtain ⟨hr0, _⟩ := fixUnit_residue_bounds v max hm h2
      have hns : ¬v < 0 := not_lt.mpr hv
      rw [if_neg hns]
      have hfl : (0 : Int) ≤ ⌊|v| / max⌋ := by
        apply Int.floor_nonneg.mpr
        positivity
      have hcast : (0 : ℚ) ≤ (⌊|v| / max⌋ : ℚ) := by exact_mod_cast hfl
      constructor
      · simpa using hr0
      · nlinarith

theorem fixUnit_nonpos {v c : ℚ} (max : ℚ) (hm : 0 < max) (hv : v ≤ 0) (hc : c ≤ 0) :
    (fixUnit v c max).1 ≤ 0 ∧ (fixUnit v c max).2 ≤ 0 := by
  unfold fixUnit
  by_cases h0 : v = 0
  · rw [if_pos h0]
    exact ⟨le_refl 0, hc⟩
  · rw [if_neg h0]
    by_cases h2 : |v| < max
    · rw [if_pos h2]
      exact ⟨hv, hc⟩
    · rw [if_neg h2]
      dsimp only
      obtain ⟨hr0, _⟩ := fixUnit_residue_bounds v max hm h2
      have hlt : v < 0 := lt_of_le_of_ne hv h0
      rw [if_pos hlt]
      have hfl : (0 : Int) ≤ ⌊|v| / max⌋ := by
        apply Int.floor_nonneg.mpr
        positivity
      have hcast : (0 : ℚ) ≤ (⌊|v| / max⌋ : ℚ) := by exact_mod_cast hfl
      constructor
      · nlinarith
      · nlinarith

theorem fix_bounds (d : RelativeDelta) :
    |(fix d).milliseconds| < 1000 ∧ |(fix d).seconds| < 60 ∧ |(fix d).minutes| < 60
    ∧ |(fix d).hours| < 24 ∧ |(fix d).months| < 12 := by
  unfold fix
  refine ⟨?_, ?_, ?_, ?_, ?_⟩ <;> exact fixUnit_fst_bound _ _ _ (by norm_num)

theorem fix_preserves (d : RelativeDelta) :
    (fix d).year = d.year ∧ (fix d).month = d.month ∧ (fix d).day = d.day
    ∧ (fix d).hour = d.hour ∧ (fix d).minute = d.minute ∧ (fix d).second = d.second
    ∧ (fix d).millisecond = d.millisecond ∧ (fix d).weekDay = d.weekDay
    ∧ (fix d).leapDays = d.leapDays := by
  unfold fix
  exact ⟨rfl, rfl, rfl, rfl, rfl, rfl, rfl, rfl, rfl⟩

theorem fix_id {d : RelativeDelta}
    (h1 : |d.milliseconds| < 1000) (h2 : |d.seconds| < 60) (h3 : |d.minutes| < 60)
    (h4 : |d.hours| < 24) (h5 : |d.months| < 12) : fix d = d := by
  unfold fix
  rw [fixUnit_id _ _ h1]
  dsimp only
  rw [fixUnit_id _ _ h2]
  dsimp only
  rw [fixUnit_id _ _ h3]
  dsimp only
  rw [fixUnit_id _ _ h4, fixUnit_id _ _ h5]

theorem fix_den {d : RelativeDelta}
    (hy : d.years.den = 1) (hmo : d.months.den = 1) (hd : d.days.den = 1)
    (hh : d.hours.den = 1) (hmi : d.minutes.den = 1) (hs : d.seconds.den = 1)
    (hms : d.milliseconds.den = 1) :
    (fix d).years.den = 1 ∧ (fix d).months.den = 1 ∧ (fix d).days.den = 1
    ∧ (fix d).hours.den = 1 ∧ (fix d).minutes.den = 1 ∧ (fix d).seconds.den = 1
    ∧ (fix d).milliseconds.den = 1 := by
  unfold fix
  have c1 := fixUnit_den hms hs (Rat.den_ofNat 1000)
  have c2 := fixUnit_den c1.2 hmi (Rat.den_ofNat 60)
  have c3 := fixUnit_den c2.2 hh (Rat.den_ofNat 60)
  have c4 := fixUnit_den c3.2 hd (Rat.den_ofNat 24)
  have c5 := fixUnit_den hmo hy (Rat.den_ofNat 12)
  exact ⟨c5.2, c5.1, c4.2, c4.1, c3.1, c2.1, c1.1⟩

theorem fix_nonneg {d : RelativeDelta}
    (hy : 0 ≤ d.years) (hmo : 0 ≤ d.months) (hd : 0 ≤ d.days) (hh : 0 ≤ d.hours)
    (hmi : 0 ≤ d.minutes) (hs : 0 ≤ d.seconds) (hms : 0 ≤ d.milliseconds) :
    0 ≤ (fix d).years ∧ 0 ≤ (fix d).months ∧ 0 ≤ (fix d).days ∧ 0 ≤ (fix d).hours
    ∧ 0 ≤ (fix d).minutes ∧ 0 ≤ (fix d).seconds ∧ 0 ≤ (fix d).milliseconds := by
  unfold fix
  have c1 := fixUnit_nonneg 1000 (by norm_num) hms hs
  have c2 := fixUnit_nonneg 60 (by norm_num) c1.2 hmi
  have c3 := fixUnit_nonneg 60 (by norm_num) c2.2 hh
  have c4 := fixUnit_nonneg 24 (by norm_num) c3.2 hd
  have c5 := fixUnit_nonneg 12 (by norm_num) hmo hy
  exact ⟨c5.2, c5.1, c4.2, c4.1, c3.1, c2.1, c1.1⟩

theorem fix_nonpos {d : RelativeDelta}
    (hy : d.years ≤ 0) (hmo : d.months ≤ 0) (hd : d.days ≤ 0) (hh : d.hours ≤ 0)
    (hmi : d.minutes ≤ 0) (hs : d.seconds ≤ 0) (hms : d.milliseconds ≤ 0) :
    (fix d).years ≤ 0 ∧ (fix d).months ≤ 0 ∧ (fix d).days ≤ 0 ∧ (fix d).hours ≤ 0
    ∧ (fix d).minutes ≤ 0 ∧ (fix d).seconds ≤ 0 ∧ (fix d).milliseconds ≤ 0 := by
  unfold fix
  have c1 := fixUnit_nonpos 1000 (by norm_num) hms hs
  have c2 := fixUnit_nonpos 60 (by norm_num) c1.2 hmi
  have c3 := fixUnit_nonpos 60 (by norm_num) c2.2 hh
  have c4 := fixUnit_nonpos 24 (by norm_num) c3.2 hd
  have c5 := fixUnit_nonpos 12 (by norm_num) hmo hy
  exact ⟨c5.2, c5.1, c4.2, c4.1, c3.1, c2.1, c1.1⟩


/-! ## Extraction lemmas for the constructor -/

theorem applySignI_one (v : Int) : applySignI v 1 = v := by
  unfold applySignI; split <;> omega

theorem applySignI_neg_one (v : Int) : applySignI v (-1) = -v := by
  unfold applySignI; split <;> omega

theorem diffSign_cases (d1 d2 : Int) : diffSign d1 d2 = -1 ∨ diffSign d1 d2 = 1 := by
  unfold diffSign
  split
  · exact Or.inl rfl
  · exact Or.inr rfl

theorem abs_applySignI (v s : Int) (hs : s = -1 ∨ s = 1) : |applySignI v s| = |v| := by
  rcases hs with h | h <;> rw [h]
  · rw [applySignI_neg_one, abs_neg]
  · rw [applySignI_one]

theorem diffMonthRaw_bounds (earlier later : Int) :
    0 ≤ diffMonthRaw earlier later ∧ diffMonthRaw earlier later < 12 := by
  unfold diffMonthRaw
  have h1 := getMonth_range earlier
  have h2 := getMonth_range later
  dsimp only
  split <;> split <;> omega

theorem diffCore_bounds (d1 d2 : Int) :
    |(diffCore d1 d2).milliseconds| < 1000 ∧ |(diffCore d1 d2).seconds| < 60
    ∧ |(diffCore d1 d2).minutes| < 60 ∧ |(diffCore d1 d2).hours| < 24
    ∧ |(diffCore d1 d2).months| < 12 := by
  unfold diffCore
  dsimp only
  have hs := diffSign_cases d1 d2
  have hMo := diffMonthRaw_bounds (diffEarlier d1 d2) (diffLater d1 d2)
  have hH1 := getHours_range (diffEarlier d1 d2)
  have hH2 := getHours_range (diffLater d1 d2)
  have hMi1 := getMinutes_range (diffEarlier d1 d2)
  have hMi2 := getMinutes_range (diffLater d1 d2)
  have hS1 := getSeconds_range (diffEarlier d1 d2)
  have hS2 := getSeconds_range (diffLater d1 d2)
  have hMs1 := getMilliseconds_range (diffEarlier d1 d2)
  have hMs2 := getMilliseconds_range (diffLater d1 d2)
  refine ⟨?_, ?_, ?_, ?_, ?_⟩ <;> rw [abs_applySignI _ _ hs, abs_lt] <;>
    constructor <;> omega

theorem construct_cases {opts : RelativeDeltaOptions} {d : RelativeDelta}
    (h : construct opts = .ok d) :
    (∃ d1 d2, opts.date1 = some d1 ∧ opts.date2 = some d2 ∧ d = diffDelta d1 d2)
    ∨ (opts.date1 = none ∧ opts.date2 = none ∧ fieldPath opts = .ok d) := by
  unfold construct at h
  rcases h1 : opts.date1 with _ | dd1 <;> rcases h2 : opts.date2 with _ | dd2 <;>
    rw [h1, h2] at h <;> dsimp only at h
  · exact Or.inr ⟨rfl, rfl, h⟩
  · exact absurd h (by simp)
  · exact absurd h (by simp)
  · simp only [Except.ok.injEq] at h
    exact Or.inl ⟨dd1, dd2, rfl, rfl, h.symm⟩

theorem assemble_ok {opts : RelativeDeltaOptions} {wd : Option Weekday}
    {mv dv : Option ℚ} {ldv : ℚ} {dm : Bool} {d : RelativeDelta}
    (h : assembleAndFinish opts wd mv dv ldv dm = .ok d) :
    ∃ wd' mv' dv' ldv' dm', validateInput (preOf opts wd' mv' dv' ldv') dm' = .ok ()
      ∧ d = fix (preOf opts wd' mv' dv' ldv') := by
  unfold assembleAndFinish at h
  rcases hv : validateInput (preOf opts wd mv dv ldv) dm with e | u <;>
    rw [hv] at h <;> dsimp only at h
  · exact absurd h (by simp)
  · simp only [Except.ok.injEq] at h
    rcases u
    exact ⟨wd, mv, dv, ldv, dm, hv, h.symm⟩

theorem fieldPath_ok {opts : RelativeDeltaOptions} {d : RelativeDelta}
    (h : fieldPath opts = .ok d) :
    ∃ wd mv dv ldv dm, validateInput (preOf opts wd mv dv ldv) dm = .ok ()
      ∧ d = fix (preOf opts wd mv dv ldv) := by
  unfold fieldPath at h
  rcases hw : resolveWeekdayInput opts.weekDay with e | wd <;> rw [hw] at h <;>
    dsimp only at h
  · exact absurd h (by simp)
  · rcases hyd : (pickYearDay opts.nonLeapYearDay opts.yearDay (opts.leapDays.getD 0)).1
      with _ | q <;> rw [hyd] at h <;> dsimp only at h
    · exact assemble_ok h
    · rcases hlk : yearDayLookup q with _ | ⟨mi, dv⟩ <;> rw [hlk] at h <;> dsimp only at h
      · exact absurd h (by simp)
      · by_cases hq : q < 1
        · rw [if_pos hq] at h
          exact absurd h (by simp)
        · rw [if_neg hq] at h
          exact assemble_ok h

theorem abs_intCast_lt_q (n : Int) (b : Int) (h : |n| < b) : |(n : ℚ)| < (b : ℚ) := by
  rw [← Int.cast_abs]
  exact_mod_cast h

/-- C2: every RelativeDelta returned by the constructor, on either path,
satisfies the canonical bounds on its sub-day relative fields and months. -/
theorem claim_C2_constructor_bounds (opts : RelativeDeltaOptions) (d : RelativeDelta)
    (h : construct opts = .ok d) :
    |d.milliseconds| < 1000 ∧ |d.seconds| < 60 ∧ |d.minutes| < 60
    ∧ |d.hours| < 24 ∧ |d.months| < 12 := by
  rcases construct_cases h with ⟨d1, d2, _, _, rfl⟩ | ⟨_, _, hf⟩
  · obtain ⟨b1, b2, b3, b4, b5⟩ := diffCore_bounds d1 d2
    unfold diffDelta
    dsimp only
    exact ⟨abs_intCast_lt_q _ _ b1, abs_intCast_lt_q _ _ b2, abs_intCast_lt_q _ _ b3,
           abs_intCast_lt_q _ _ b4, abs_intCast_lt_q _ _ b5⟩
  · obtain ⟨wd, mv, dv, ldv, dm, _, rfl⟩ := fieldPath_ok hf
    exact fix_bounds _

/-- C7: a delta whose only set field is a weekday selector with occurrence
count `n = 1` leaves any date already on the target weekday unchanged. -/
theorem claim_C7_weekday_fixed_point (w : Nat) (t : Int)
    (h : (getDay t + 6) % 7 = (w : Int)) :
    applyToDate
      { years := 0, months := 0, days := 0, leapDays := 0, hours := 0, minutes := 0,
        seconds := 0, milliseconds := 0, year := none, month := none, day := none,
        hour := none, minute := none, second := none, millisecond := none,
        weekDay := some ⟨w, 1⟩ } t = t := by
  unfold applyToDate
  norm_num
  have hjump : (7 - (getDay t + 6) % 7 + (w : Int)) % 7 = 0 := by
    rw [h]
    omega
  rw [hjump]
  rw [setDate_getDate_add t 0]
  ring


/-! ## Concrete fixtures used by witnesses -/

/-- The delta constructed from `{days: 15}`. -/
def d15val : RelativeDelta :=
  { years := 0, months := 0, days := 15, leapDays := 0, hours := 0, minutes := 0,
    seconds := 0, milliseconds := 0, year := none, month := none, day := none,
    hour := none, minute := none, second := none, millisecond := none, weekDay := none }

theorem construct_days15 : construct { days := some 15 } = .ok d15val := by
  simp only [construct, fieldPath, resolveWeekdayInput, pickYearDay, pickFromYearDay,
    assembleAndFinish, preOf, validateInput, checkAbsolute, seqE, fix, fixUnit,
    Option.getD, d15val]
  norm_num

theorem claim_C2_witness : |d15val.milliseconds| < 1000 ∧ |d15val.seconds| < 60
    ∧ |d15val.minutes| < 60 ∧ |d15val.hours| < 24 ∧ |d15val.months| < 12 :=
  claim_C2_constructor_bounds { days := some 15 } d15val construct_days15

theorem claim_C7_witness :
    applyToDate
      { years := 0, months := 0, days := 0, leapDays := 0, hours := 0, minutes := 0,
        seconds := 0, milliseconds := 0, year := none, month := none, day := none,
        hour := none, minute := none, second := none, millisecond := none,
        weekDay := some ⟨0, 1⟩ } (dateUTC 2023 0 30) = dateUTC 2023 0 30 :=
  claim_C7_weekday_fixed_point 0 (dateUTC 2023 0 30) (by decide)

/-- C1: the source rejects `hour: 0`, `minute: 0`, `second: 0` and
`millisecond: 0` with a range error whose lower bound is 1, although its
own option documentation gives the ranges as 0–23, 0–59, 0–59 and 0–999. -/
theorem claim_C1_zero_time_fields_rejected :
    construct { hour := some 0 } = .error "parameter hour is out of range: 1...23"
    ∧ construct { minute := some 0 } = .error "parameter minute is out of range: 1...59"
    ∧ construct { second := some 0 } = .error "parameter second is out of range: 1...59"
    ∧ construct { millisecond := some 0 }
        = .error "parameter millisecond is out of range: 1...999" := by
  refine ⟨?_, ?_, ?_, ?_⟩ <;>
  · simp only [construct, fieldPath, resolveWeekdayInput, pickYearDay, pickFromYearDay,
      assembleAndFinish, preOf, validateInput, checkAbsolute, seqE, Option.getD]
    norm_num

/-- C8: when `years` and `months` are both zero, `toSeconds` is the pure
fixed-duration formula over `days + leapDays` and the time fields, for
every reference instant. -/
theorem claim_C8_toSeconds_formula (d : RelativeDelta) (referenceDate : Int)
    (h1 : d.years = 0) (h2 : d.months = 0) :
    toSeconds d referenceDate
      = handleFloatingPoint ((d.days + d.leapDays) * 86400 + d.hours * 3600
          + d.minutes * 60 + d.seconds + d.milliseconds / 1000) := by
  unfold toSeconds
  rw [if_pos ⟨h1, h2⟩]

theorem claim_C8_witness : toSeconds d15val 0 = 1296000 := by
  rw [claim_C8_toSeconds_formula d15val 0 rfl rfl]
  norm_num [d15val, handleFloatingPoint]


/-! ## Extraction for `normalized` -/

theorem normOpts_date1 (d : RelativeDelta) : (normOpts d).date1 = none := rfl

theorem normOpts_date2 (d : RelativeDelta) : (normOpts d).date2 = none := rfl

theorem normOpts_weekDay (d : RelativeDelta) : (normOpts d).weekDay = none := rfl

theorem normOpts_yearDay (d : RelativeDelta) : (normOpts d).yearDay = none := rfl

theorem normOpts_nonLeapYearDay (d : RelativeDelta) : (normOpts d).nonLeapYearDay = none := rfl

theorem normOpts_leapDays (d : RelativeDelta) : (normOpts d).leapDays = none := rfl

theorem normOpts_month (d : RelativeDelta) : (normOpts d).month = none := rfl

theorem normOpts_day (d : RelativeDelta) : (normOpts d).day = none := rfl

theorem pickYearDay_none (x : ℚ) : pickYearDay none none x = (none, x) := rfl

theorem normalized_ok {d n : RelativeDelta} (h : normalized d = .ok n) :
    validateInput (preOf (normOpts d) none none none 0) false = .ok ()
    ∧ n = fix (preOf (normOpts d) none none none 0) := by
  unfold normalized construct at h
  rw [normOpts_date1, normOpts_date2] at h
  unfold fieldPath at h
  rw [normOpts_weekDay] at h
  simp only [resolveWeekdayInput] at h
  rw [normOpts_yearDay, normOpts_nonLeapYearDay, normOpts_leapDays] at h
  simp only [Option.getD_none, pickYearDay_none] at h
  rw [normOpts_month, normOpts_day] at h
  unfold assembleAndFinish at h
  rcases hv : validateInput (preOf (normOpts d) none none none 0) false with e | u <;>
    rw [hv] at h <;> dsimp only at h
  · exact absurd h (by simp)
  · simp only [Except.ok.injEq] at h
    rcases u
    exact ⟨rfl, h.symm⟩

/-- C10: `normalized()` carries only the relative fields: the result has
every absolute override null, no weekday selector and `leapDays = 0`. -/
theorem claim_C10_normalized_clears_absolutes (d n : RelativeDelta)
    (h : normalized d = .ok n) :
    n.year = none ∧ n.month = none ∧ n.day = none ∧ n.hour = none ∧ n.minute = none
    ∧ n.second = none ∧ n.millisecond = none ∧ n.weekDay = none ∧ n.leapDays = 0 := by
  obtain ⟨_, rfl⟩ := normalized_ok h
  obtain ⟨p1, p2, p3, p4, p5, p6, p7, p8, p9⟩ :=
    fix_preserves (preOf (normOpts d) none none none 0)
  rw [p1, p2, p3, p4, p5, p6, p7, p8, p9]
  exact ⟨rfl, rfl, rfl, rfl, rfl, rfl, rfl, rfl, rfl⟩

theorem normalized_days15 : normalized d15val = .ok d15val := by
  unfold normalized
  have hopts : normOpts d15val =
      { years := some 0
        months := some 0
        days := some 15
        hours := some 0
        minutes := some 0
        seconds := some 0
        milliseconds := some 0 } := by
    simp only [normOpts, d15val, jsTrunc, handleFloatingPoint, jsRound]
    norm_num
  rw [hopts]
  simp only [construct, fieldPath, resolveWeekdayInput, pickYearDay, pickFromYearDay,
    assembleAndFinish, preOf, validateInput, checkAbsolute, seqE, fix, fixUnit,
    Option.getD, d15val]
  norm_num

theorem claim_C10_witness :
    d15val.year = none ∧ d15val.month = none ∧ d15val.day = none ∧ d15val.hour = none
    ∧ d15val.minute = none ∧ d15val.second = none ∧ d15val.millisecond = none
    ∧ d15val.weekDay = none ∧ d15val.leapDays = 0 :=
  claim_C10_normalized_clears_absolutes d15val d15val normalized_days15


/-! ## C6: sign consistency after normalization -/

/-- The delta constructed from `{milliseconds: 1500, seconds: -5}`. -/
def c6val : RelativeDelta :=
  { years := 0, months := 0, days := 0, leapDays := 0, hours := 0, minutes := 0,
    seconds := -4, milliseconds := 500, year := none, month := none, day := none,
    hour := none, minute := none, second := none, millisecond := none, weekDay := none }

/-- C6 counterexample: mixed-sign explicit options leave adjacent stored
units with strictly opposite signs: `{milliseconds: 1500, seconds: -5}`
constructs a delta holding `+500` ms next to `-4` s. -/
theorem claim_C6_counterexample :
    construct { milliseconds := some 1500, seconds := some (-5) } = .ok c6val
    ∧ 0 < c6val.milliseconds ∧ c6val.seconds < 0 := by
  refine ⟨?_, by norm_num [c6val], by norm_num [c6val]⟩
  simp only [construct, fieldPath, resolveWeekdayInput, pickYearDay, pickFromYearDay,
    assembleAndFinish, preOf, validateInput, checkAbsolute, seqE, fix, fixUnit,
    Option.getD, c6val]
  norm_num

/-- C6 (amended): when the explicit relative options all share one sign,
every relative field of the constructed delta keeps that sign, hence no
adjacent pair among milliseconds/seconds, seconds/minutes, minutes/hours,
hours/days and months/years has strictly opposite signs; mixed-sign
options can violate this, as the counterexample shows. -/
theorem claim_C6_amended_same_sign (opts : RelativeDeltaOptions) (d : RelativeDelta)
    (hd1 : opts.date1 = none)
    (hsame : (0 ≤ opts.years.getD 0 ∧ 0 ≤ opts.months.getD 0 ∧ 0 ≤ opts.weeks.getD 0
        ∧ 0 ≤ opts.days.getD 0 ∧ 0 ≤ opts.hours.getD 0 ∧ 0 ≤ opts.minutes.getD 0
        ∧ 0 ≤ opts.seconds.getD 0 ∧ 0 ≤ opts.milliseconds.getD 0)
      ∨ (opts.years.getD 0 ≤ 0 ∧ opts.months.getD 0 ≤ 0 ∧ opts.weeks.getD 0 ≤ 0
        ∧ opts.days.getD 0 ≤ 0 ∧ opts.hours.getD 0 ≤ 0 ∧ opts.minutes.getD 0 ≤ 0
        ∧ opts.seconds.getD 0 ≤ 0 ∧ opts.milliseconds.getD 0 ≤ 0))
    (h : construct opts = .ok d) :
    ¬(0 < d.milliseconds ∧ d.seconds < 0) ∧ ¬(d.milliseconds < 0 ∧ 0 < d.seconds)
    ∧ ¬(0 < d.seconds ∧ d.minutes < 0) ∧ ¬(d.seconds < 0 ∧ 0 < d.minutes)
    ∧ ¬(0 < d.minutes ∧ d.hours < 0) ∧ ¬(d.minutes < 0 ∧ 0 < d.hours)
    ∧ ¬(0 < d.hours ∧ d.days < 0) ∧ ¬(d.hours < 0 ∧ 0 < d.days)
    ∧ ¬(0 < d.months ∧ d.years < 0) ∧ ¬(d.months < 0 ∧ 0 < d.years) := by
  rcases construct_cases h with ⟨dd1, dd2, hc1, _, _⟩ | ⟨_, _, hf⟩
  · rw [hd1] at hc1
    exact absurd hc1 (by simp)
  · obtain ⟨wd, mv, dv, ldv, dm, _, rfl⟩ := fieldPath_ok hf
    rcases hsame with ⟨s1, s2, s3, s4, s5, s6, s7, s8⟩ | ⟨s1, s2, s3, s4, s5, s6, s7, s8⟩
    · obtain ⟨f1, f2, f3, f4, f5, f6, f7⟩ :=
        fix_nonneg (d := preOf opts wd mv dv ldv) s1 s2
          (add_nonneg s4 (mul_nonneg s3 (by norm_num))) s5 s6 s7 s8
      refine ⟨?_, ?_, ?_, ?_, ?_, ?_, ?_, ?_, ?_, ?_⟩ <;> rintro ⟨a, b⟩ <;> linarith
    · obtain ⟨f1, f2, f3, f4, f5, f6, f7⟩ :=
        fix_nonpos (d := preOf opts wd mv dv ldv) s1 s2
          (add_nonpos s4 (mul_nonpos_of_nonpos_of_nonneg s3 (by norm_num))) s5 s6 s7 s8
      refine ⟨?_, ?_, ?_, ?_, ?_, ?_, ?_, ?_, ?_, ?_⟩ <;> rintro ⟨a, b⟩ <;> linarith

/-- The delta constructed from `{milliseconds: 1500, seconds: 5}`. -/
def c6posval : RelativeDelta :=
  { years := 0, months := 0, days := 0, leapDays := 0, hours := 0, minutes := 0,
    seconds := 6, milliseconds := 500, year := none, month := none, day := none,
    hour := none, minute := none, second := none, millisecond := none, weekDay := none }

theorem construct_c6pos :
    construct { milliseconds := some 1500, seconds := some 5 } = .ok c6posval := by
  simp only [construct, fieldPath, resolveWeekdayInput, pickYearDay, pickFromYearDay,
    assembleAndFinish, preOf, validateInput, checkAbsolute, seqE, fix, fixUnit,
    Option.getD, c6posval]
  norm_num

theorem claim_C6_witness :
    ¬(0 < c6posval.milliseconds ∧ c6posval.seconds < 0)
    ∧ ¬(c6posval.milliseconds < 0 ∧ 0 < c6posval.seconds)
    ∧ ¬(0 < c6posval.seconds ∧ c6posval.minutes < 0)
    ∧ ¬(c6posval.seconds < 0 ∧ 0 < c6posval.minutes)
    ∧ ¬(0 < c6posval.minutes ∧ c6posval.hours < 0)
    ∧ ¬(c6posval.minutes < 0 ∧ 0 < c6posval.hours)
    ∧ ¬(0 < c6posval.hours ∧ c6posval.days < 0)
    ∧ ¬(c6posval.hours < 0 ∧ 0 < c6posval.days)
    ∧ ¬(0 < c6posval.months ∧ c6posval.years < 0)
    ∧ ¬(c6posval.months < 0 ∧ 0 < c6posval.years) :=
  claim_C6_amended_same_sign { milliseconds := some 1500, seconds := some 5 } c6posval
    rfl (Or.inl (by norm_num)) construct_c6pos


/-! ## C4: the concrete two-instant diff -/

/-- `new Date(2020, 0, 1, 0, 0, 0)` in a UTC environment. -/
def c4date1 : Int := dateUTC 2020 0 1

/-- `new Date(2021, 11, 31, 23, 59, 59)` in a UTC environment. -/
def c4date2 : Int := dateUTC 2021 11 31 + 23*3600000 + 59*60000 + 59*1000

/-- The delta the diff path produces for the two C4 instants. -/
def c4val : RelativeDelta :=
  { years := -1, months := -11, days := -30, leapDays := -1, hours := -23,
    minutes := -59, seconds := -59, milliseconds := 0, year := none, month := none,
    day := none, hour := none, minute := none, second := none, millisecond := none,
    weekDay := none }

/-- C4: diffing 2020-01-01T00:00:00 against 2021-12-31T23:59:59 yields
exactly years −1, months −11, days −30, hours −23, minutes −59,
seconds −59 and milliseconds 0 (together with leapDays −1 and all
absolute fields unset). -/
theorem claim_C4_diff_example :
    construct { date1 := some c4date1, date2 := some c4date2 } = .ok c4val := by
  have hcore : diffCore c4date1 c4date2 =
      { years := -1, months := -11, days := -30, leapDays := -1, hours := -23,
        minutes := -59, seconds := -59, milliseconds := 0 } := by decide
  show Except.ok (diffDelta c4date1 c4date2) = .ok c4val
  unfold diffDelta
  dsimp only
  rw [hcore]
  norm_num [c4val]


/-! ## C5: the leap-year month-end clamp -/

/-- The delta constructed from `{months: 1, day: 31}`. -/
def c5val : RelativeDelta :=
  { years := 0, months := 1, days := 0, leapDays := 0, hours := 0, minutes := 0,
    seconds := 0, milliseconds := 0, year := none, month := none, day := some 31,
    hour := none, minute := none, second := none, millisecond := none, weekDay := none }

theorem construct_c5 : construct { months := some 1, day := some 31 } = .ok c5val := by
  simp only [construct, fieldPath, resolveWeekdayInput, pickYearDay, pickFromYearDay,
    assembleAndFinish, preOf, validateInput, checkAbsolute, seqE, fix, fixUnit,
    Option.getD, c5val]
  norm_num

/-- C5: applying `{months: 1, day: 31}` to 2020-01-31 sets the absolute
day first (clamped within January), then the month step restores
`min(31, 29)`, landing on 2020-02-29 rather than overflowing into
March. -/
theorem claim_C5_leap_clamp :
    construct { months := some 1, day := some 31 } = .ok c5val
    ∧ applyToDate c5val (dateUTC 2020 0 31) = dateUTC 2020 1 29 := by
  refine ⟨construct_c5, ?_⟩
  have g1 : getFullYear (dateUTC 2020 0 31) = 2020 := by decide
  have g2 : getMonth (dateUTC 2020 0 31) = 0 := by decide
  have g3 : getDate (dateUTC 2020 1 0) = 31 := by decide
  have g4 : setFullYear3 (dateUTC 2020 0 31) 2020 0 31 = dateUTC 2020 0 31 := by decide
  have g5 : getDate (dateUTC 2020 0 31) = 31 := by decide
  have g6 : setFullYear3 (dateUTC 2020 0 31) 2020 1 1 = dateUTC 2020 1 1 := by decide
  have g7 : getDate (dateUTC 2020 2 0) = 29 := by decide
  have g8 : setDate (dateUTC 2020 1 1) 29 = dateUTC 2020 1 29 := by decide
  unfold applyToDate
  norm_num [c5val, jsTrunc, jsRemQ, g1, g2, g3, g4, g5, g6, g7, g8]


/-! ## C3: the day-count derivation of `toSeconds` for calendar deltas -/

/-- The `toSeconds` day-count derivation as the specification words it
(spec section 4.4 step 2): normalize both copies of the reference instant
to noon, add `years` to the year field of one copy, then add `months`
with the same floor-division/positive-modulo month rollover as the
application algorithm — set to the 1st of the target month first, then
restore `min(originalDay, daysInTargetMonth)`, the end-of-month clamp —
take the whole-day difference between the two copies via calendar-day
timestamps, add it to `days + leapDays`, and apply the seconds formula
with floating-point cleanup. -/
def toSecondsSpec (d : RelativeDelta) (referenceDate : Int) : ℚ :=
  let startDate := setHours4 referenceDate 12 0 0 0
  let e1 := setFullYear1 startDate (getFullYear startDate + jsTrunc d.years)
  let originalDay := getDate e1
  let targetMonth : Int := getMonth e1 + jsTrunc d.months
  let targetYear : Int := getFullYear e1 + targetMonth / 12
  let nm : Int := targetMonth % 12
  let firstOf := setFullYear3 e1 targetYear nm 1
  let daysInTargetMonth := getDate (dateUTC targetYear (nm + 1) 0)
  let e2 := setDate firstOf (min originalDay daysInTargetMonth)
  let startUtc := dateUTC (getFullYear startDate) (getMonth startDate) (getDate startDate)
  let endUtc := dateUTC (getFullYear e2) (getMonth e2) (getDate e2)
  let daysDiff := jsRoundDiv (endUtc - startUtc) 86400000
  handleFloatingPoint ((d.days + d.leapDays + (daysDiff : ℚ)) * 86400 + d.hours * 3600
    + d.minutes * 60 + d.seconds + d.milliseconds / 1000)

/-- The delta constructed from `{months: 1}`. -/
def dm1val : RelativeDelta :=
  { years := 0, months := 1, days := 0, leapDays := 0, hours := 0, minutes := 0,
    seconds := 0, milliseconds := 0, year := none, month := none, day := none,
    hour := none, minute := none, second := none, millisecond := none, weekDay := none }

/-- `new Date(2023, 0, 31)`: the month-end reference instant. -/
def c3ref : Int := dateUTC 2023 0 31

/-- C3: at a month-end reference the code and the specified derivation
disagree.  The code adds the month with day-overflow rollover
(January 31 + 1 month lands on March 3) and its subsequent clamp check
compares the landed day against its own month length, which never fires,
so `toSeconds` counts 31 days; the specified derivation clamps to
February 28 and counts 28 days. -/
theorem claim_C3_month_end_divergence :
    construct { months := some 1 } = .ok dm1val
    ∧ toSeconds dm1val c3ref = 2678400
    ∧ toSecondsSpec dm1val c3ref = 2419200 := by
  refine ⟨?_, ?_, ?_⟩
  · simp only [construct, fieldPath, resolveWeekdayInput, pickYearDay, pickFromYearDay,
      assembleAndFinish, preOf, validateInput, checkAbsolute, seqE, fix, fixUnit,
      Option.getD, dm1val]
    norm_num
  · have a1 : getMonth (setHours4 c3ref 12 0 0 0) = 0 := by decide
    have a2 : getFullYear (setHours4 c3ref 12 0 0 0) = 2023 := by decide
    have a3 : setFullYear1 (setHours4 c3ref 12 0 0 0) 2023 = setHours4 c3ref 12 0 0 0 := by
      decide
    have a4 : setMonth (setHours4 c3ref 12 0 0 0) 1 = dateUTC 2023 2 3 + 43200000 := by
      decide
    have a5 : getFullYear (dateUTC 2023 2 3 + 43200000) = 2023 := by decide
    have a6 : getMonth (dateUTC 2023 2 3 + 43200000) = 2 := by decide
    have a7 : getDate (dateUTC 2023 3 0) = 31 := by decide
    have a8 : getDate (dateUTC 2023 2 3 + 43200000) = 3 := by decide
    have a9 : getDate (setHours4 c3ref 12 0 0 0) = 31 := by decide
    have a10 : jsRoundDiv (dateUTC 2023 2 3 - dateUTC 2023 0 31) 86400000 = 31 := by decide
    unfold toSeconds
    norm_num [dm1val, jsTrunc, jsRemQ, handleFloatingPoint, a1, a2, a3, a4, a5, a6, a7,
      a8, a9, a10]
  · have b1 : getFullYear (setHours4 c3ref 12 0 0 0) = 2023 := by decide
    have b2 : setFullYear1 (setHours4 c3ref 12 0 0 0) 2023 = setHours4 c3ref 12 0 0 0 := by
      decide
    have b3 : getDate (setHours4 c3ref 12 0 0 0) = 31 := by decide
    have b4 : getMonth (setHours4 c3ref 12 0 0 0) = 0 := by decide
    have b5 : setFullYear3 (setHours4 c3ref 12 0 0 0) 2023 1 1
        = dateUTC 2023 1 1 + 43200000 := by decide
    have b6 : getDate (dateUTC 2023 2 0) = 28 := by decide
    have b7 : setDate (dateUTC 2023 1 1 + 43200000) 28
        = dateUTC 2023 1 28 + 43200000 := by decide
    have b8 : getFullYear (dateUTC 2023 1 28 + 43200000) = 2023 := by decide
    have b9 : getMonth (dateUTC 2023 1 28 + 43200000) = 1 := by decide
    have b10 : getDate (dateUTC 2023 1 28 + 43200000) = 28 := by decide
    have b11 : jsRoundDiv (dateUTC 2023 1 28 - dateUTC 2023 0 31) 86400000 = 28 := by decide
    unfold toSecondsSpec
    norm_num [dm1val, jsTrunc, handleFloatingPoint, b1, b2, b3, b4, b5, b6, b7, b8, b9,
      b10, b11]


/-! ## C9: idempotence of `normalized` -/

theorem validateInput_ok_den {p : RelativeDelta} {b : Bool}
    (h : validateInput p b = .ok ()) : p.years.den = 1 ∧ p.months.den = 1 := by
  unfold validateInput at h
  by_cases hc : p.years.den ≠ 1 ∨ p.months.den ≠ 1
  · rw [if_pos hc] at h
    exact absurd h (by simp)
  · push_neg at hc
    exact hc

/-- On a delta whose relative fields are already integral, the option
record built by `normalized` simply wraps the fields unchanged. -/
theorem normOpts_of_int (p : RelativeDelta)
    (h3 : p.days.den = 1) (h4 : p.hours.den = 1) (h5 : p.minutes.den = 1)
    (h6 : p.seconds.den = 1) (h7 : p.milliseconds.den = 1) :
    normOpts p = {
      years := some p.years,
      months := some p.months,
      days := some p.days,
      hours := some p.hours,
      minutes := some p.minutes,
      seconds := some p.seconds,
      milliseconds := some p.milliseconds } := by
  unfold normOpts
  dsimp only
  rw [jsTrunc_cast_eq h3, sub_self, mul_zero, add_zero, handleFloatingPoint_den_one h4]
  rw [jsTrunc_cast_eq h4, sub_self, mul_zero, add_zero, handleFloatingPoint_den_one h5]
  rw [jsTrunc_cast_eq h5, sub_self, mul_zero, add_zero, handleFloatingPoint_den_one h6]
  rw [floor_cast_eq h6, sub_self, mul_zero, add_zero]
  rw [jsRound_cast_eq h7]

/-- Constructing from exactly the relative fields of an already-normalized
pure-relative delta returns that delta. -/
theorem construct_relatives (p : RelativeDelta)
    (hy : p.years.den = 1) (hm : p.months.den = 1)
    (h1 : p.year = none) (h2 : p.month = none) (h3 : p.day = none) (h4 : p.hour = none)
    (h5 : p.minute = none) (h6 : p.second = none) (h7 : p.millisecond = none)
    (h8 : p.weekDay = none) (h9 : p.leapDays = 0)
    (hb1 : |p.milliseconds| < 1000) (hb2 : |p.seconds| < 60) (hb3 : |p.minutes| < 60)
    (hb4 : |p.hours| < 24) (hb5 : |p.months| < 12) :
    construct {
      years := some p.years,
      months := some p.months,
      days := some p.days,
      hours := some p.hours,
      minutes := some p.minutes,
      seconds := some p.seconds,
      milliseconds := some p.milliseconds } = .ok p := by
  obtain ⟨py, pmo, pd, pld, ph, pmi, ps, pms, o1, o2, o3, o4, o5, o6, o7, o8⟩ := p
  dsimp only at hy hm h1 h2 h3 h4 h5 h6 h7 h8 h9 hb1 hb2 hb3 hb4 hb5 ⊢
  subst h1 h2 h3 h4 h5 h6 h7 h8 h9
  simp only [construct, fieldPath, resolveWeekdayInput, pickYearDay, pickFromYearDay,
    assembleAndFinish, preOf, Option.getD, zero_mul, add_zero]
  have hv : validateInput {
      years := py,
      months := pmo,
      days := pd,
      leapDays := 0,
      hours := ph,
      minutes := pmi,
      seconds := ps,
      milliseconds := pms,
      year := none,
      month := none,
      day := none,
      hour := none,
      minute := none,
      second := none,
      millisecond := none,
      weekDay := none } false = .ok () := by
    unfold validateInput
    rw [if_neg (by push_neg; exact ⟨hy, hm⟩)]
    rfl
  rw [hv]
  dsimp only
  exact congrArg Except.ok (fix_id hb1 hb2 hb3 hb4 hb5)

/-- C9: `normalized()` is idempotent: normalizing an already-normalized
delta returns it unchanged. -/
theorem claim_C9_normalized_idempotent (d n : RelativeDelta)
    (h : normalized d = .ok n) : normalized n = .ok n := by
  obtain ⟨hval, rfl⟩ := normalized_ok h
  have hdens := validateInput_ok_den hval
  have hPd : (preOf (normOpts d) none none none 0).days.den = 1 :=
    den_one_add (Rat.den_intCast _) (den_one_mul (Rat.den_ofNat 0) (Rat.den_ofNat 7))
  have hPh : (preOf (normOpts d) none none none 0).hours.den = 1 := Rat.den_intCast _
  have hPmi : (preOf (normOpts d) none none none 0).minutes.den = 1 := Rat.den_intCast _
  have hPs : (preOf (normOpts d) none none none 0).seconds.den = 1 := Rat.den_intCast _
  have hPms : (preOf (normOpts d) none none none 0).milliseconds.den = 1 :=
    Rat.den_intCast _
  obtain ⟨ny, nmo, nd, nh, nmi, ns, nms⟩ :=
    fix_den hdens.1 hdens.2 hPd hPh hPmi hPs hPms
  obtain ⟨bb1, bb2, bb3, bb4, bb5⟩ := fix_bounds (preOf (normOpts d) none none none 0)
  unfold normalized
  rw [normOpts_of_int (fix (preOf (normOpts d) none none none 0)) nd nh nmi ns nms]
  exact construct_relatives _ ny nmo rfl rfl rfl rfl rfl rfl rfl rfl rfl bb1 bb2 bb3 bb4 bb5

def c9frac : RelativeDelta :=
  { years := 0
    months := 0
    days := 3/2
    leapDays := 0
    hours := 0
    minutes := 0
    seconds := 0
    milliseconds := 0
    year := none
    month := none
    day := none
    hour := none
    minute := none
    second := none
    millisecond := none
    weekDay := none }

def c9norm : RelativeDelta :=
  { years := 0
    months := 0
    days := 1
    leapDays := 0
    hours := 12
    minutes := 0
    seconds := 0
    milliseconds := 0
    year := none
    month := none
    day := none
    hour := none
    minute := none
    second := none
    millisecond := none
    weekDay := none }

theorem c9frac_norm : normalized c9frac = .ok c9norm := by
  unfold normalized
  have hopts : normOpts c9frac =
      { years := some 0
        months := some 0
        days := some 1
        hours := some 12
        minutes := some 0
        seconds := some 0
        milliseconds := some 0 } := by
    simp only [normOpts, c9frac, jsTrunc, handleFloatingPoint, jsRound]
    norm_num
  rw [hopts]
  simp only [construct, fieldPath, resolveWeekdayInput, pickYearDay, pickFromYearDay,
    assembleAndFinish, preOf, validateInput, checkAbsolute, seqE, fix, fixUnit,
    Option.getD, c9norm]
  norm_num

theorem claim_C9_witness :
    normalized c9frac = .ok c9norm ∧ normalized c9norm = .ok c9norm :=
  ⟨c9frac_norm, claim_C9_normalized_idempotent c9frac c9norm c9frac_norm⟩

end RelativeDeltaProof










